import Mathlib

/-!
# Bit-flip mutator (`bit_flip_mutator.c`)

A shallow embedding of the bit-flip mutator: the option handling of
`setup_options`, the mutation step `mutate_inner`, the state codec
`get_state` / `set_state` and the iteration accountant
`get_total_iteration_count`.

Conventions.
* `size_t` and `uint64_t` are 64-bit unsigned integers, embedded as `Nat`
  with every operation reduced modulo `2^64`.
* `int` is a 32-bit two's-complement integer, embedded as `Int`; a
  conversion to `int` wraps modulo `2^32`.
* Helpers that live outside `bit_flip_mutator.c` (the mutex functions,
  `mutate_one`, `reset_mutate_info`, the option readers, the mutate-info
  codec) are arguments of the function that calls them.
-/

namespace BitFlip

/-! ## C integer conversions -/

/-- Number of values of a 64-bit unsigned integer (`size_t`, `uint64_t`). -/
def U64_MOD : Nat := 18446744073709551616

/-- Largest value of `int`. -/
def INT_MAX : Int := 2147483647

/-- Smallest value of `int`. -/
def INT_MIN : Int := -2147483648

/-- Unsigned 64-bit addition. -/
def u64_add (a b : Nat) : Nat := (a + b) % U64_MOD

/-- Unsigned 64-bit subtraction (wraps below zero). -/
def u64_sub (a b : Nat) : Nat := (a % U64_MOD + U64_MOD - b % U64_MOD) % U64_MOD

/-- Unsigned 64-bit left shift. -/
def u64_shl (a k : Nat) : Nat := (a <<< k) % U64_MOD

/-- Unsigned 64-bit right shift. -/
def u64_shr (a k : Nat) : Nat := (a % U64_MOD) >>> k

/-- Conversion of an integer value to `int`: the low 32 bits, read as two's
complement. -/
def to_int (x : Int) : Int := (x + 2147483648) % 4294967296 - 2147483648

/-- Conversion of an `int` to `uint64_t`. -/
def int_to_u64 (x : Int) : Nat := (x % 18446744073709551616).toNat

/-- Conversion of a `uint64_t` to the 64-bit signed integer of a JSON number. -/
def u64_to_i64 (x : Nat) : Int :=
  if x % U64_MOD < 9223372036854775808 then ((x % U64_MOD : Nat) : Int)
  else ((x % U64_MOD : Nat) : Int) - 18446744073709551616

/-- The value is representable as an `int`. -/
def is_int (x : Int) : Prop := INT_MIN ≤ x ∧ x ≤ INT_MAX

instance (x : Int) : Decidable (is_int x) := by
  unfold is_int; exact inferInstance

/-! ## Data model -/

/-- Modelled from the spec: `mutate_info_t` is declared in `afl_helpers.h`,
which is not part of the file. `stage`, `one_stage_only` and `mutate_mutex`
are the members `bit_flip_mutator.c` reads and writes; `cursor` is the
position inside the current stage that the spec gives the mutation state. -/
structure mutate_info_t where
  stage : Int
  one_stage_only : Int
  mutate_mutex : Nat
  cursor : Int
deriving DecidableEq, Repr

/-- The record `struct bit_flip_state`. `input` holds the seed bytes. -/
structure bit_flip_state_t where
  num_bits : Nat
  input : List Nat
  input_length : Nat
  iteration : Int
  info : mutate_info_t
deriving DecidableEq, Repr

/-- The view `mutate_buffer_t` handed to the stage operators. -/
structure mutate_buffer_t where
  buffer : List Nat
  length : Nat
  max_length : Nat
deriving DecidableEq, Repr

/-- The six stage operators named in the table `mutate_funcs`. -/
inductive stage_operator where
  | single_walking_bit
  | two_walking_bit
  | four_walking_bit
  | walking_byte
  | two_walking_byte
  | four_walking_byte
deriving DecidableEq, Repr

/-- The table `mutate_funcs`. -/
def mutate_funcs : List stage_operator :=
  [ stage_operator.single_walking_bit,
    stage_operator.two_walking_bit,
    stage_operator.four_walking_bit,
    stage_operator.walking_byte,
    stage_operator.two_walking_byte,
    stage_operator.four_walking_byte ]

/-- The local table `bits_per_stage` of `setup_options`. -/
def bits_per_stage : List Nat := [1, 2, 4, 8, 16, 32]

/-! ## Iteration accountant -/

/-- The function `get_total_iteration_count`: the arithmetic is done in
`size_t` and the result is converted to the `int` return type. -/
def get_total_iteration_count (state : bit_flip_state_t) : Int :=
  if state.info.one_stage_only ≠ 0 then
    if state.num_bits < 8 then
      to_int (u64_sub (u64_shl state.input_length 3) (u64_sub state.num_bits 1))
    else
      to_int (u64_sub state.input_length (u64_sub (u64_shr state.num_bits 3) 1))
  else
    to_int
      (u64_add
        (u64_add
          (u64_add
            (u64_add
              (u64_add (u64_shl state.input_length 3)
                (u64_sub (u64_shl state.input_length 3) 1))
              (u64_sub (u64_shl state.input_length 3) 3))
            state.input_length)
          (u64_sub state.input_length 1))
        (u64_sub state.input_length 3))

/-- The closed form of the spec for one window size, over the integers:
`8L - (w-1)` for the sub-byte windows and `L - (w/8 - 1)` for the others. -/
def spec_stage_total (L w : Nat) : Int :=
  if w < 8 then 8 * (L : Int) - ((w : Int) - 1)
  else (L : Int) - ((w : Int) / 8 - 1)

/-- The value of a `size_t` computation of the integer `x`, returned through
the `int` return type. -/
def size_t_as_int (x : Int) : Int := to_int (x % 18446744073709551616)

/-- A state pinned to the single window size `w` over a seed of length `L`. -/
def single_stage_state (state : bit_flip_state_t) (w : Nat) : bit_flip_state_t :=
  { state with num_bits := w, info := { state.info with one_stage_only := 1 } }

/-- A state in full-sweep mode. -/
def full_sweep_state (state : bit_flip_state_t) : bit_flip_state_t :=
  { state with info := { state.info with one_stage_only := 0 } }

/-- Sum over the integers of the six single-stage totals. -/
def sum_of_stage_totals (state : bit_flip_state_t) : Int :=
  get_total_iteration_count (single_stage_state state 1)
    + get_total_iteration_count (single_stage_state state 2)
    + get_total_iteration_count (single_stage_state state 4)
    + get_total_iteration_count (single_stage_state state 8)
    + get_total_iteration_count (single_stage_state state 16)
    + get_total_iteration_count (single_stage_state state 32)

/-- A seed of `L` zero bytes in a state with the given window and mode. -/
def sample_state (L w : Nat) (one_stage_only : Int) : bit_flip_state_t :=
  { num_bits := w, input := List.replicate L 0, input_length := L, iteration := 0,
    info := { stage := 0, one_stage_only := one_stage_only, mutate_mutex := 0, cursor := 0 } }

/-! ## Construction: `setup_options` -/

/-- Outcome of reading one integer option from the options text. -/
inductive option_int where
  | error
  | absent
  | value (v : Int)
deriving DecidableEq, Repr

/-- The loop of `setup_options` over `bits_per_stage`: entry `i` is compared
with `num_bits` for as long as `stage` is negative. The first argument is the
part of the table from index `i` on. -/
def find_stage (num_bits : Nat) : List Nat → Nat → Int → Int
  | [], _, stage => stage
  | b :: rest, i, stage =>
    if stage < 0 then
      find_stage num_bits rest (i + 1) (if b = num_bits then (i : Int) else stage)
    else stage

/-- Modelled from the spec: `PARSE_OPTION_INT` is defined in a header that is
not part of the file. A reading error fails the construction, an absent option
leaves the member as it is, a present one is stored (here: into the
`uint64_t` member `num_bits`). -/
def PARSE_OPTION_INT_num_bits (state : bit_flip_state_t) (r : option_int) :
    Option bit_flip_state_t :=
  match r with
  | option_int.error => none
  | option_int.absent => some state
  | option_int.value v => some { state with num_bits := int_to_u64 v }

/-- The state after `memset(state, 0, sizeof(bit_flip_state_t))`. -/
def zero_state : bit_flip_state_t :=
  { num_bits := 0, input := [], input_length := 0, iteration := 0,
    info := { stage := 0, one_stage_only := 0, mutate_mutex := 0, cursor := 0 } }

/-- The function `setup_options`; `none` is the `NULL` result.
* `malloc_ok`: the allocation of the state succeeded;
* `reset_mutate_info`: return code and the defaults it writes;
* `parse_mutate_info_options`: the shared options read by
  `PARSE_MUTATE_INFO_OPTIONS`, `none` when that fails;
* `get_int_options`: the reader behind `PARSE_OPTION_INT`, given the options
  text and the option name. -/
def setup_options (malloc_ok : Bool)
    (reset_mutate_info : mutate_info_t → Int × mutate_info_t)
    (parse_mutate_info_options : String → mutate_info_t → Option mutate_info_t)
    (get_int_options : String → String → option_int)
    (options : Option String) : Option bit_flip_state_t :=
  if !malloc_ok then none
  else
    let state := zero_state
    let r := reset_mutate_info state.info
    if r.1 ≠ 0 then none
    else
      let state := { state with info := r.2 }
      match options with
      | none => some state
      | some text =>
        if text.length = 0 then some state
        else
          match parse_mutate_info_options text state.info with
          | none => none
          | some info =>
            let state := { state with info := info }
            match PARSE_OPTION_INT_num_bits state (get_int_options text "num_bits") with
            | none => none
            | some state =>
              if state.num_bits ≠ 0 then
                let stage := find_stage state.num_bits bits_per_stage 0 (-1)
                if stage < 0 then none
                else some { state with info := { state.info with stage := stage, one_stage_only := 1 } }
              else some state

/-! ## The mutation step -/

/-- The result of `memcpy(buf.buffer, state->input, buf.length)`. -/
def memcpy (dst src : List Nat) (n : Nat) : List Nat :=
  src.take n ++ dst.drop n

/-- The function `mutate_inner`. It returns the `int` result, the state and
the caller's buffer after the call.
* `take_mutex`, `release_mutex`: return codes of the two mutex calls for the
  given mutex handle (nonzero is a failure);
* `mutate_one`: return value, mutate-info and buffer after the dispatch into
  the operator table.
`state->iteration++` is the integer successor: an `iteration` at `INT_MAX`,
where the C increment is undefined, is outside the model. -/
def mutate_inner (take_mutex release_mutex : Nat → Int)
    (mutate_one : mutate_info_t → mutate_buffer_t → List stage_operator → Nat →
      Int × mutate_info_t × mutate_buffer_t)
    (state : bit_flip_state_t) (buffer : List Nat) (buffer_length : Nat)
    (is_thread_safe : Int) : Int × bit_flip_state_t × List Nat :=
  if buffer_length < state.input_length then (-1, state, buffer)
  else
    let len := min buffer_length state.input_length
    let buf : mutate_buffer_t :=
      { buffer := memcpy buffer state.input len, length := len, max_length := buffer_length }
    if is_thread_safe ≠ 0 ∧ take_mutex state.info.mutate_mutex ≠ 0 then
      (-1, state, buf.buffer)
    else
      let state := { state with iteration := state.iteration + 1 }
      let r := mutate_one state.info buf mutate_funcs mutate_funcs.length
      let state := { state with info := r.2.1 }
      if is_thread_safe ≠ 0 ∧ release_mutex state.info.mutate_mutex ≠ 0 then
        (-1, state, r.2.2.buffer)
      else (r.1, state, r.2.2.buffer)

/-- The function `mutate`: the step without the mutex. -/
def mutate (take_mutex release_mutex : Nat → Int)
    (mutate_one : mutate_info_t → mutate_buffer_t → List stage_operator → Nat →
      Int × mutate_info_t × mutate_buffer_t)
    (state : bit_flip_state_t) (buffer : List Nat) (buffer_length : Nat) :
    Int × bit_flip_state_t × List Nat :=
  mutate_inner take_mutex release_mutex mutate_one state buffer buffer_length 0

/-- The state after `n` successive calls of `mutate` on the same buffer. -/
def mutate_n (take_mutex release_mutex : Nat → Int)
    (mutate_one : mutate_info_t → mutate_buffer_t → List stage_operator → Nat →
      Int × mutate_info_t × mutate_buffer_t)
    (buffer : List Nat) (buffer_length : Nat) : Nat → bit_flip_state_t → bit_flip_state_t
  | 0, state => state
  | n + 1, state =>
    mutate_n take_mutex release_mutex mutate_one buffer buffer_length n
      (mutate take_mutex release_mutex mutate_one state buffer buffer_length).2.1

/-- Modelled from the spec: `GENERIC_MUTATOR_GET_ITERATION` is defined in a
header that is not part of the file; `get_current_iteration` reports the
`iteration` member, the number of mutations already produced. -/
def get_current_iteration (state : bit_flip_state_t) : Int := state.iteration

/-! ## State codec -/

/-- A member value of a JSON object: an integer, or anything else. -/
inductive json_value where
  | integer (v : Int)
  | other (text : String)
deriving DecidableEq, Repr

/-- Modelled from the spec: the JSON layer (jansson and its helper header) is
not part of the file. A JSON object is the list of its members. -/
abbrev json_t := List (String × json_value)

/-- A snapshot text: one that does not parse, or the object it encodes. -/
inductive snapshot_t where
  | invalid
  | object (members : json_t)
deriving DecidableEq, Repr

/-- The empty object of `json_object()`. -/
def json_object : json_t := []

/-- Setting a member replaces an existing member of that name. -/
def json_object_set : json_t → String → json_value → json_t
  | [], name, v => [(name, v)]
  | (k, x) :: rest, name, v =>
    if k = name then (k, v) :: rest else (k, x) :: json_object_set rest name v

/-- Reading a member by name. -/
def json_object_get : json_t → String → Option json_value
  | [], _ => none
  | (k, x) :: rest, name => if k = name then some x else json_object_get rest name

/-- The text `json_dumps` writes for an object. -/
def json_dumps (obj : json_t) : snapshot_t := snapshot_t.object obj

/-- Modelled from the spec: `ADD_INT` is defined in a header that is not part
of the file; it stores the value as an integer member under the name. -/
def ADD_INT (v : Int) (dest : json_t) (name : String) : json_t :=
  json_object_set dest name (json_value.integer v)

/-- Modelled from the spec: the integer reader behind `GET_INT`. The member
is missing or unparseable (`none`), or its value is delivered as an `int`. -/
def get_int_from_snapshot (state : snapshot_t) (name : String) : Option Int :=
  match state with
  | snapshot_t.invalid => none
  | snapshot_t.object obj =>
    match json_object_get obj name with
    | some (json_value.integer v) => some (to_int v)
    | _ => none

/-- The function `get_state`; `none` is the `NULL` result.
`add_mutate_info_to_json` gives the object with the mutate-info members
added, or `none` when it reports failure. -/
def get_state (add_mutate_info_to_json : json_t → mutate_info_t → Option json_t)
    (state : bit_flip_state_t) : Option snapshot_t :=
  let state_obj := json_object
  let state_obj := ADD_INT state.iteration state_obj "iteration"
  let state_obj := ADD_INT (u64_to_i64 state.num_bits) state_obj "num_bits"
  match add_mutate_info_to_json state_obj state.info with
  | none => none
  | some state_obj => some (json_dumps state_obj)

/-- The function `set_state`: return code and the state after the call.
Each `GET_INT` returns 1 from `set_state` when the member cannot be read and
stores it into its destination otherwise. `get_mutate_info_from_json` gives
its return code and the mutate-info it leaves behind. -/
def set_state (get_mutate_info_from_json : snapshot_t → mutate_info_t → Int × mutate_info_t)
    (current_state : bit_flip_state_t) (state : Option snapshot_t) :
    Int × bit_flip_state_t :=
  match state with
  | none => (1, current_state)
  | some text =>
    match get_int_from_snapshot text "iteration" with
    | none => (1, current_state)
    | some temp_int =>
      let current_state := { current_state with iteration := temp_int }
      match get_int_from_snapshot text "num_bits" with
      | none => (1, current_state)
      | some temp_int =>
        let current_state := { current_state with num_bits := int_to_u64 temp_int }
        let r := get_mutate_info_from_json text current_state.info
        let current_state := { current_state with info := r.2 }
        if r.1 ≠ 0 then (1, current_state) else (0, current_state)

/-- Modelled from the spec: `add_mutate_info_to_json` is not part of the
file. The snapshot carries the mode, the stage and the cursor of the
mutate-info as integer members. -/
def add_mutate_info_to_json (obj : json_t) (info : mutate_info_t) : Option json_t :=
  let obj := ADD_INT info.one_stage_only obj "one_stage_only"
  let obj := ADD_INT info.stage obj "stage"
  let obj := ADD_INT info.cursor obj "cursor"
  some obj

/-- Modelled from the spec: `get_mutate_info_from_json` is not part of the
file. It reads the members written by `add_mutate_info_to_json` by name and
fails, leaving the mutate-info as it was, when one cannot be read. -/
def get_mutate_info_from_json (state : snapshot_t) (info : mutate_info_t) :
    Int × mutate_info_t :=
  match get_int_from_snapshot state "one_stage_only",
        get_int_from_snapshot state "stage",
        get_int_from_snapshot state "cursor" with
  | some m, some s, some c =>
    (0, { info with one_stage_only := m, stage := s, cursor := c })
  | _, _, _ => (1, info)

/-- The `uint64_t` values that come from storing an `int`: the nonnegative
`int`s and the sign-extended negative ones. -/
def is_u64_of_int (n : Nat) : Prop :=
  n ≤ 2147483647 ∨ (18446744071562067968 ≤ n ∧ n ≤ 18446744073709551615)

instance (n : Nat) : Decidable (is_u64_of_int n) := by
  unfold is_u64_of_int; exact inferInstance

/-- The value ranges of the C types of a state: `iteration` and the
mutate-info members are `int`s, and `num_bits` is a `uint64_t` that was
stored from an `int`, as `setup_options` and `set_state` do. -/
def state_in_range (s : bit_flip_state_t) : Prop :=
  is_int s.iteration ∧ is_int s.info.stage ∧ is_int s.info.one_stage_only ∧
    is_int s.info.cursor ∧ is_u64_of_int s.num_bits

instance (s : bit_flip_state_t) : Decidable (state_in_range s) := by
  unfold state_in_range; exact inferInstance

/-! ## Sample collaborators and states -/

/-- Modelled from the spec: `mutate_one` is not part of the file. This sample
gives the walking-byte stage (index 3) only: while the cursor is inside the
buffer the byte under it is complemented, the cursor moves on and the length
is returned; otherwise the call reports exhaustion with 0. -/
def sample_mutate_one (info : mutate_info_t) (buf : mutate_buffer_t)
    (_funcs : List stage_operator) (_num_funcs : Nat) :
    Int × mutate_info_t × mutate_buffer_t :=
  if info.stage = 3 ∧ 0 ≤ info.cursor ∧ info.cursor.toNat < buf.length then
    ((buf.length : Int), { info with cursor := info.cursor + 1 },
      { buf with buffer :=
          buf.buffer.set info.cursor.toNat (255 - buf.buffer.getD info.cursor.toNat 0) })
  else (0, info, buf)

/-- A mutex call that succeeds. -/
def mutex_ok (_mutex : Nat) : Int := 0

/-- A mutex call that fails. -/
def mutex_fails (_mutex : Nat) : Int := 1

/-- The engine for the one-byte seed `"A"` pinned to the 8-bit window, as
`setup_options` leaves it once the seed is installed. -/
def byte_seed_state : bit_flip_state_t :=
  { num_bits := 8, input := [65], input_length := 1, iteration := 0,
    info := { stage := 3, one_stage_only := 1, mutate_mutex := 0, cursor := 0 } }

/-- A `reset_mutate_info` that succeeds and leaves the zeroed defaults. -/
def sample_reset_mutate_info (info : mutate_info_t) : Int × mutate_info_t := (0, info)

/-- A shared-options reader that accepts the text without changing anything. -/
def sample_parse_mutate_info_options (_text : String) (info : mutate_info_t) :
    Option mutate_info_t := some info

/-- An option reader that finds `num_bits` with the value `v` and no other
option. -/
def sample_get_int_options (v : Int) (_text : String) (name : String) : option_int :=
  if name = "num_bits" then option_int.value v else option_int.absent

/-! ## Arithmetic of the conversions -/

theorem to_int_of_is_int (x : Int) (h : is_int x) : to_int x = x := by
  unfold is_int INT_MIN INT_MAX at h
  unfold to_int
  omega

theorem is_int_to_int (x : Int) : is_int (to_int x) := by
  unfold is_int INT_MIN INT_MAX to_int
  omega

theorem size_t_as_int_of_is_int (x : Int) (h : is_int x) : size_t_as_int x = x := by
  unfold is_int INT_MIN INT_MAX at h
  unfold size_t_as_int to_int
  omega

theorem total_single_stage_eq (L w : Nat) (one : Int) (inp : List Nat) (it : Int)
    (st : Int) (mx : Nat) (cur : Int) (hone : one ≠ 0) (hw : w ∈ bits_per_stage) :
    get_total_iteration_count
        { num_bits := w, input := inp, input_length := L, iteration := it,
          info := { stage := st, one_stage_only := one, mutate_mutex := mx, cursor := cur } }
      = size_t_as_int (spec_stage_total L w) := by
  simp only [bits_per_stage, List.mem_cons, List.mem_singleton, List.not_mem_nil,
    or_false] at hw
  rcases hw with h | h | h | h | h | h <;> subst h <;>
    simp only [get_total_iteration_count, hone, spec_stage_total, size_t_as_int, to_int,
      u64_sub, u64_shl, u64_shr, U64_MOD, Nat.shiftLeft_eq, Nat.shiftRight_eq_div_pow,
      ne_eq, not_false_eq_true, if_true, if_false] <;>
    simp only [Nat.reduceLT, if_true, if_false] <;>
    omega

theorem to_int_congr (a b : Int)
    (h : a % 18446744073709551616 = b % 18446744073709551616) : to_int a = to_int b := by
  unfold to_int
  omega

theorem cast_u64_add_emod (a b : Nat) (x y : Int)
    (ha : (a : Int) % 18446744073709551616 = x % 18446744073709551616)
    (hb : (b : Int) % 18446744073709551616 = y % 18446744073709551616) :
    ((u64_add a b : Nat) : Int) % 18446744073709551616 = (x + y) % 18446744073709551616 := by
  unfold u64_add U64_MOD
  omega

theorem cast_u64_sub_emod (a b : Nat) (x y : Int)
    (ha : (a : Int) % 18446744073709551616 = x % 18446744073709551616)
    (hb : (b : Int) % 18446744073709551616 = y % 18446744073709551616) :
    ((u64_sub a b : Nat) : Int) % 18446744073709551616 = (x - y) % 18446744073709551616 := by
  unfold u64_sub U64_MOD
  omega

theorem cast_u64_shl_three_emod (a : Nat) :
    ((u64_shl a 3 : Nat) : Int) % 18446744073709551616
      = (8 * (a : Int)) % 18446744073709551616 := by
  unfold u64_shl U64_MOD
  simp only [Nat.shiftLeft_eq]
  omega

theorem total_full_sweep_eq (L w : Nat) (inp : List Nat) (it : Int)
    (st : Int) (mx : Nat) (cur : Int) :
    get_total_iteration_count
        { num_bits := w, input := inp, input_length := L, iteration := it,
          info := { stage := st, one_stage_only := 0, mutate_mutex := mx, cursor := cur } }
      = size_t_as_int (27 * (L : Int) - 8) := by
  have h8 := cast_u64_shl_three_emod L
  have hL : ((L : Nat) : Int) % 18446744073709551616 = (L : Int) % 18446744073709551616 := rfl
  have h1 : ((1 : Nat) : Int) % 18446744073709551616 = (1 : Int) % 18446744073709551616 := rfl
  have h3 : ((3 : Nat) : Int) % 18446744073709551616 = (3 : Int) % 18446744073709551616 := rfl
  have hsum :=
    cast_u64_add_emod _ _ _ _
      (cast_u64_add_emod _ _ _ _
        (cast_u64_add_emod _ _ _ _
          (cast_u64_add_emod _ _ _ _
            (cast_u64_add_emod _ _ _ _ h8 (cast_u64_sub_emod _ _ _ _ h8 h1))
            (cast_u64_sub_emod _ _ _ _ h8 h3))
          hL)
        (cast_u64_sub_emod _ _ _ _ hL h1))
      (cast_u64_sub_emod _ _ _ _ hL h3)
  have hring : 8 * (L : Int) + (8 * L - 1) + (8 * L - 3) + L + (L - 1) + (L - 3)
      = 27 * (L : Int) - 8 := by ring
  rw [hring] at hsum
  simp only [get_total_iteration_count, ne_eq, not_true_eq_false, if_false, size_t_as_int]
  rw [to_int_congr _ _ hsum]
  apply to_int_congr
  omega

theorem sum_of_stage_totals_eq (s : bit_flip_state_t) :
    sum_of_stage_totals s
      = size_t_as_int (spec_stage_total s.input_length 1)
        + size_t_as_int (spec_stage_total s.input_length 2)
        + size_t_as_int (spec_stage_total s.input_length 4)
        + size_t_as_int (spec_stage_total s.input_length 8)
        + size_t_as_int (spec_stage_total s.input_length 16)
        + size_t_as_int (spec_stage_total s.input_length 32) := by
  unfold sum_of_stage_totals single_stage_state
  rw [total_single_stage_eq _ 1 _ _ _ _ _ _ one_ne_zero (by decide),
    total_single_stage_eq _ 2 _ _ _ _ _ _ one_ne_zero (by decide),
    total_single_stage_eq _ 4 _ _ _ _ _ _ one_ne_zero (by decide),
    total_single_stage_eq _ 8 _ _ _ _ _ _ one_ne_zero (by decide),
    total_single_stage_eq _ 16 _ _ _ _ _ _ one_ne_zero (by decide),
    total_single_stage_eq _ 32 _ _ _ _ _ _ one_ne_zero (by decide)]

theorem size_t_as_int_modEq (x : Int) : size_t_as_int x ≡ x [ZMOD 4294967296] := by
  unfold Int.ModEq size_t_as_int to_int
  omega

theorem to_int_eq_of_modEq (a b : Int) (h : a ≡ b [ZMOD 4294967296]) :
    to_int a = to_int b := by
  unfold Int.ModEq at h
  unfold to_int
  omega

theorem spec_stage_total_sum (L : Nat) :
    spec_stage_total L 1 + spec_stage_total L 2 + spec_stage_total L 4
        + spec_stage_total L 8 + spec_stage_total L 16 + spec_stage_total L 32
      = 27 * (L : Int) - 8 := by
  simp only [spec_stage_total, Nat.reduceLT, if_true, if_false]
  omega

/-! ## C1: the single-stage closed form -/

/-- C1. In single-stage mode with a window `w` among 1, 2, 4, 8, 16, 32,
`get_total_iteration_count` returns the closed form `8L - (w-1)` (sub-byte
windows) or `L - (w/8 - 1)` (byte windows), computed in `size_t` and returned
as an `int`, for every seed length `L`; whenever the closed form is
representable as an `int` the result is that integer itself. -/
theorem get_total_iteration_count_single_stage (state : bit_flip_state_t)
    (hL : 1 ≤ state.input_length)
    (hone : state.info.one_stage_only ≠ 0) (hw : state.num_bits ∈ bits_per_stage) :
    get_total_iteration_count state
        = size_t_as_int (spec_stage_total state.input_length state.num_bits) ∧
      (is_int (spec_stage_total state.input_length state.num_bits) →
        get_total_iteration_count state
          = spec_stage_total state.input_length state.num_bits) := by
  have _ := hL
  obtain ⟨w, inp, L, it, ⟨st, one, mx, cur⟩⟩ := state
  have h := total_single_stage_eq L w one inp it st mx cur hone hw
  refine ⟨h, fun hr => ?_⟩
  rw [h]
  exact size_t_as_int_of_is_int _ hr

/-- C1 at the seed `"AB"` of the spec (`L = 2`, one-bit window): 16 mutations. -/
theorem get_total_iteration_count_single_stage_witness :
    get_total_iteration_count (sample_state 2 1 1) = 16 :=
  (get_total_iteration_count_single_stage (sample_state 2 1 1) (by decide) (by decide)
    (by decide)).2 (by decide)

/-! ## C2: full sweep against the six stages -/

/-- C2, as the code has it. In full-sweep mode the returned value is the sum
of the six single-stage values reduced to the `int` range; the two are the
same integer whenever `27 L - 8` does not exceed `INT_MAX`. -/
theorem get_total_iteration_count_full_sweep (state : bit_flip_state_t)
    (hfull : state.info.one_stage_only = 0) :
    get_total_iteration_count state = to_int (sum_of_stage_totals state) ∧
      (27 * (state.input_length : Int) - 8 ≤ INT_MAX →
        get_total_iteration_count state = sum_of_stage_totals state) := by
  rw [sum_of_stage_totals_eq]
  obtain ⟨w, inp, L, it, ⟨st, one, mx, cur⟩⟩ := state
  simp only at hfull
  subst hfull
  rw [total_full_sweep_eq]
  simp only
  constructor
  · have hsum :=
      (((((size_t_as_int_modEq (spec_stage_total L 1)).add
        (size_t_as_int_modEq (spec_stage_total L 2))).add
        (size_t_as_int_modEq (spec_stage_total L 4))).add
        (size_t_as_int_modEq (spec_stage_total L 8))).add
        (size_t_as_int_modEq (spec_stage_total L 16))).add
        (size_t_as_int_modEq (spec_stage_total L 32))
    rw [spec_stage_total_sum] at hsum
    rw [to_int_eq_of_modEq _ _ hsum]
    have hfix : to_int (27 * (L : Int) - 8) = size_t_as_int (27 * (L : Int) - 8) := by
      unfold size_t_as_int to_int
      omega
    exact hfix.symm
  · intro h
    have hL : (0 : Int) ≤ (L : Int) := Int.ofNat_nonneg L
    have r1 : is_int (spec_stage_total L 1) := by
      simp only [spec_stage_total, is_int, INT_MIN, INT_MAX, Nat.reduceLT, if_true] at *
      omega
    have r2 : is_int (spec_stage_total L 2) := by
      simp only [spec_stage_total, is_int, INT_MIN, INT_MAX, Nat.reduceLT, if_true] at *
      omega
    have r4 : is_int (spec_stage_total L 4) := by
      simp only [spec_stage_total, is_int, INT_MIN, INT_MAX, Nat.reduceLT, if_true] at *
      omega
    have r8 : is_int (spec_stage_total L 8) := by
      simp only [spec_stage_total, is_int, INT_MIN, INT_MAX, Nat.reduceLT, if_false] at *
      omega
    have r16 : is_int (spec_stage_total L 16) := by
      simp only [spec_stage_total, is_int, INT_MIN, INT_MAX, Nat.reduceLT, if_false] at *
      omega
    have r32 : is_int (spec_stage_total L 32) := by
      simp only [spec_stage_total, is_int, INT_MIN, INT_MAX, Nat.reduceLT, if_false] at *
      omega
    have rt : is_int (27 * (L : Int) - 8) := by
      simp only [is_int, INT_MIN, INT_MAX] at *
      omega
    rw [size_t_as_int_of_is_int _ r1, size_t_as_int_of_is_int _ r2,
      size_t_as_int_of_is_int _ r4, size_t_as_int_of_is_int _ r8,
      size_t_as_int_of_is_int _ r16, size_t_as_int_of_is_int _ r32,
      size_t_as_int_of_is_int _ rt, spec_stage_total_sum]

/-- C2 on a seed of two bytes: 16 + 15 + 13 + 2 + 1 - 1 = 46. -/
theorem get_total_iteration_count_full_sweep_witness :
    get_total_iteration_count (sample_state 2 0 0) = sum_of_stage_totals (sample_state 2 0 0) :=
  (get_total_iteration_count_full_sweep (sample_state 2 0 0) (by decide)).2 (by decide)

/-- C2 fails as stated on a seed of `2^27` bytes: the six single-stage values
add up to 3623878648, which is no `int`; the full sweep returns -671088648. -/
theorem full_sweep_differs_from_sum :
    get_total_iteration_count (sample_state 134217728 0 0) = -671088648 ∧
      sum_of_stage_totals (sample_state 134217728 0 0) = 3623878648 ∧
      get_total_iteration_count (sample_state 134217728 0 0)
        ≠ sum_of_stage_totals (sample_state 134217728 0 0) := by
  refine ⟨by rfl, by rfl, ?_⟩
  have h1 : get_total_iteration_count (sample_state 134217728 0 0) = -671088648 := by rfl
  have h2 : sum_of_stage_totals (sample_state 134217728 0 0) = 3623878648 := by rfl
  rw [h1, h2]
  decide

/-! ## C3: short seeds -/

/-- C3. On a seed of one byte pinned to the 32-bit window the count is -2,
on a seed of length zero pinned to the two-bit window it is -1, and the full
sweep over the empty seed gives -8 and over a one-byte seed 19 (the 32-bit
stage counting as -2): no stage is clamped to 0. -/
theorem get_total_iteration_count_negative :
    get_total_iteration_count (sample_state 1 32 1) = -2 ∧
      get_total_iteration_count (sample_state 0 2 1) = -1 ∧
      get_total_iteration_count (sample_state 0 0 0) = -8 ∧
      get_total_iteration_count (sample_state 1 0 0) = 19 := by
  refine ⟨by rfl, by rfl, by rfl, by rfl⟩

/-! ## C4: the capacity check -/

/-- C4. When the output capacity is smaller than the seed length,
`mutate_inner` (and so `mutate`) returns -1, the output buffer is as it was
and the whole state is unchanged. -/
theorem mutate_inner_capacity_error (take_mutex release_mutex : Nat → Int)
    (mutate_one : mutate_info_t → mutate_buffer_t → List stage_operator → Nat →
      Int × mutate_info_t × mutate_buffer_t)
    (state : bit_flip_state_t) (buffer : List Nat) (buffer_length : Nat)
    (is_thread_safe : Int) (h : buffer_length < state.input_length) :
    mutate_inner take_mutex release_mutex mutate_one state buffer buffer_length is_thread_safe
        = (-1, state, buffer) ∧
      mutate take_mutex release_mutex mutate_one state buffer buffer_length
        = (-1, state, buffer) := by
  simp [mutate, mutate_inner, h]

/-- C4 on the one-byte seed with an empty output buffer. -/
theorem mutate_inner_capacity_error_witness :
    mutate_inner mutex_ok mutex_ok sample_mutate_one byte_seed_state [] 0 1
        = (-1, byte_seed_state, []) ∧
      mutate mutex_ok mutex_ok sample_mutate_one byte_seed_state [] 0
        = (-1, byte_seed_state, []) :=
  mutate_inner_capacity_error mutex_ok mutex_ok sample_mutate_one byte_seed_state [] 0 1
    (by decide)

/-! ## C8: mutex failures -/

/-- C8 fails as stated: when the mutex is taken but its release fails, the
call returns -1 after the step was made; the iteration went from 0 to 1 and
the cursor moved. -/
theorem mutate_inner_release_failure_advances :
    mutex_fails byte_seed_state.info.mutate_mutex ≠ 0 ∧
      (mutate_inner mutex_ok mutex_fails sample_mutate_one byte_seed_state [0] 1 1).1 = -1 ∧
      (mutate_inner mutex_ok mutex_fails sample_mutate_one byte_seed_state [0] 1 1).2.1
        = { byte_seed_state with
            iteration := 1, info := { byte_seed_state.info with cursor := 1 } } ∧
      (mutate_inner mutex_ok mutex_fails sample_mutate_one byte_seed_state [0] 1 1).2.1
        ≠ byte_seed_state := by
  decide

/-- C8, as the code has it. In a thread-safe call, a failure to take the
mutex returns -1 with the state unchanged; a failure to release it (the
capacity check and the take having passed) returns -1 with the step already
made: `iteration` is one more and the mutate-info is what `mutate_one` left. -/
theorem mutate_inner_mutex_failure (take_mutex release_mutex : Nat → Int)
    (mutate_one : mutate_info_t → mutate_buffer_t → List stage_operator → Nat →
      Int × mutate_info_t × mutate_buffer_t)
    (state : bit_flip_state_t) (buffer : List Nat) (buffer_length : Nat)
    (is_thread_safe : Int) (hts : is_thread_safe ≠ 0) :
    (take_mutex state.info.mutate_mutex ≠ 0 →
      (mutate_inner take_mutex release_mutex mutate_one state buffer buffer_length
          is_thread_safe).1 = -1 ∧
        (mutate_inner take_mutex release_mutex mutate_one state buffer buffer_length
          is_thread_safe).2.1 = state) ∧
      (state.input_length ≤ buffer_length →
        take_mutex state.info.mutate_mutex = 0 →
        release_mutex
            (mutate_one state.info
              { buffer := memcpy buffer state.input (min buffer_length state.input_length),
                length := min buffer_length state.input_length,
                max_length := buffer_length }
              mutate_funcs mutate_funcs.length).2.1.mutate_mutex ≠ 0 →
        (mutate_inner take_mutex release_mutex mutate_one state buffer buffer_length
            is_thread_safe).1 = -1 ∧
          (mutate_inner take_mutex release_mutex mutate_one state buffer buffer_length
            is_thread_safe).2.1
            = { state with
                iteration := state.iteration + 1,
                info := (mutate_one state.info
                  { buffer := memcpy buffer state.input (min buffer_length state.input_length),
                    length := min buffer_length state.input_length,
                    max_length := buffer_length }
                  mutate_funcs mutate_funcs.length).2.1 }) := by
  constructor
  · intro htake
    by_cases hcap : buffer_length < state.input_length
    · simp [mutate_inner, hcap]
    · simp [mutate_inner, hcap, hts, htake]
  · intro hcap htake hrel
    have hcap2 : ¬ buffer_length < state.input_length := Nat.not_lt.mpr hcap
    simp only [mutate_inner, hcap2, if_false, htake, ne_eq, not_true_eq_false, and_false]
    simp only [ne_eq] at hrel hts
    simp [hts, hrel]

/-- C8 on the one-byte seed: a failing take leaves the fresh state as it is. -/
theorem mutate_inner_mutex_failure_witness :
    (mutate_inner mutex_fails mutex_ok sample_mutate_one byte_seed_state [0] 1 1).1 = -1 ∧
      (mutate_inner mutex_fails mutex_ok sample_mutate_one byte_seed_state [0] 1 1).2.1
        = byte_seed_state :=
  (mutate_inner_mutex_failure mutex_fails mutex_ok sample_mutate_one byte_seed_state [0] 1 1
    (by decide)).1 (by decide)

/-! ## C6: the iteration counter against the total -/

theorem mutate_step_fields (take_mutex release_mutex : Nat → Int)
    (mutate_one : mutate_info_t → mutate_buffer_t → List stage_operator → Nat →
      Int × mutate_info_t × mutate_buffer_t)
    (state : bit_flip_state_t) (buffer : List Nat) (buffer_length : Nat)
    (h : state.input_length ≤ buffer_length) :
    (mutate take_mutex release_mutex mutate_one state buffer buffer_length).2.1.iteration
        = state.iteration + 1 ∧
      (mutate take_mutex release_mutex mutate_one state buffer buffer_length).2.1.input_length
        = state.input_length ∧
      (mutate take_mutex release_mutex mutate_one state buffer buffer_length).2.1.num_bits
        = state.num_bits := by
  have hcap : ¬ buffer_length < state.input_length := Nat.not_lt.mpr h
  simp [mutate, mutate_inner, hcap]

theorem mutate_n_fields (take_mutex release_mutex : Nat → Int)
    (mutate_one : mutate_info_t → mutate_buffer_t → List stage_operator → Nat →
      Int × mutate_info_t × mutate_buffer_t)
    (buffer : List Nat) (buffer_length : Nat) (n : Nat) :
    ∀ state : bit_flip_state_t, state.input_length ≤ buffer_length →
      (mutate_n take_mutex release_mutex mutate_one buffer buffer_length n state).iteration
          = state.iteration + n ∧
        (mutate_n take_mutex release_mutex mutate_one buffer buffer_length n state).input_length
          = state.input_length ∧
        (mutate_n take_mutex release_mutex mutate_one buffer buffer_length n state).num_bits
          = state.num_bits := by
  induction n with
  | zero => intro state _; simp [mutate_n]
  | succ k ih =>
    intro state h
    have hstep := mutate_step_fields take_mutex release_mutex mutate_one state buffer
      buffer_length h
    have hnext := ih (mutate take_mutex release_mutex mutate_one state buffer buffer_length).2.1
      (by rw [hstep.2.1]; exact h)
    simp only [mutate_n]
    rw [hnext.1, hnext.2.1, hnext.2.2, hstep.1, hstep.2.1, hstep.2.2]
    refine ⟨?_, rfl, rfl⟩
    push_cast
    ring

/-- C6. On the one-byte seed pinned to the 8-bit window the total is 1. The
first `mutate` returns 1 and the second reports exhaustion with 0, yet the
second call has counted too: `iteration` is 2, above the total. Whatever
`mutate_one` does, `iteration` is 2 after two calls. -/
theorem iteration_exceeds_total_after_exhaustion :
    get_total_iteration_count byte_seed_state = 1 ∧
      (mutate mutex_ok mutex_ok sample_mutate_one byte_seed_state [0] 1).1 = 1 ∧
      (mutate mutex_ok mutex_ok sample_mutate_one
        (mutate mutex_ok mutex_ok sample_mutate_one byte_seed_state [0] 1).2.1 [0] 1).1 = 0 ∧
      get_current_iteration
        (mutate_n mutex_ok mutex_ok sample_mutate_one [0] 1 2 byte_seed_state) = 2 ∧
      get_total_iteration_count
        (mutate_n mutex_ok mutex_ok sample_mutate_one [0] 1 2 byte_seed_state) = 1 ∧
      ∀ (mutate_one : mutate_info_t → mutate_buffer_t → List stage_operator → Nat →
          Int × mutate_info_t × mutate_buffer_t),
        (mutate_n mutex_ok mutex_ok mutate_one [0] 1 2 byte_seed_state).iteration = 2 := by
  refine ⟨by decide, by decide, by decide, by decide, by decide, ?_⟩
  intro mutate_one
  have h := (mutate_n_fields mutex_ok mutex_ok mutate_one [0] 1 2 byte_seed_state
    (by decide)).1
  rw [h]
  decide

/-! ## C5 and C10: `num_bits` at construction -/

theorem find_stage_of_not_mem (n : Nat) (h : n ∉ bits_per_stage) :
    find_stage n bits_per_stage 0 (-1) = -1 := by
  simp only [bits_per_stage, List.mem_cons, List.mem_singleton, List.not_mem_nil,
    or_false, not_or] at h
  obtain ⟨h1, h2, h4, h8, h16, h32⟩ := h
  simp [find_stage, bits_per_stage, Ne.symm h1, Ne.symm h2, Ne.symm h4, Ne.symm h8,
    Ne.symm h16, Ne.symm h32]

theorem int_to_u64_of_bad_value (v : Int) (hv : is_int v) (h0 : v ≠ 0)
    (hbad : v ∉ [(1 : Int), 2, 4, 8, 16, 32]) :
    int_to_u64 v ≠ 0 ∧ int_to_u64 v ∉ bits_per_stage := by
  simp only [List.mem_cons, List.mem_singleton, List.not_mem_nil, or_false, not_or] at hbad
  simp only [bits_per_stage, List.mem_cons, List.mem_singleton, List.not_mem_nil,
    or_false, not_or]
  unfold is_int INT_MIN INT_MAX at hv
  unfold int_to_u64
  omega

/-- C5 fails as stated for the value 0: with `num_bits` present and 0 the
guard `if (state->num_bits)` is not entered and `setup_options` returns the
full-sweep state; the value 3 is rejected. -/
theorem setup_options_accepts_zero_num_bits :
    setup_options true sample_reset_mutate_info sample_parse_mutate_info_options
        (sample_get_int_options 0) (some "\x7b\"num_bits\": 0\x7d") = some zero_state ∧
      setup_options true sample_reset_mutate_info sample_parse_mutate_info_options
        (sample_get_int_options 3) (some "\x7b\"num_bits\": 3\x7d") = none := by
  constructor <;> decide

/-- C5, as the code has it. When `num_bits` is present with a nonzero `int`
value that is not one of 1, 2, 4, 8, 16, 32, `setup_options` returns `NULL`,
whatever the other helpers do. -/
theorem setup_options_rejects_invalid_num_bits (malloc_ok : Bool)
    (reset_mutate_info : mutate_info_t → Int × mutate_info_t)
    (parse_mutate_info_options : String → mutate_info_t → Option mutate_info_t)
    (get_int_options : String → String → option_int)
    (text : String) (v : Int) (htext : text.length ≠ 0)
    (hget : get_int_options text "num_bits" = option_int.value v)
    (hv : is_int v) (h0 : v ≠ 0) (hbad : v ∉ [(1 : Int), 2, 4, 8, 16, 32]) :
    setup_options malloc_ok reset_mutate_info parse_mutate_info_options get_int_options
      (some text) = none := by
  obtain ⟨hnz, hnot⟩ := int_to_u64_of_bad_value v hv h0 hbad
  have hfind := find_stage_of_not_mem _ hnot
  unfold setup_options
  cases malloc_ok with
  | false => simp
  | true =>
    by_cases hr : (reset_mutate_info zero_state.info).1 ≠ 0
    · simp [hr]
    · cases hp : parse_mutate_info_options text (reset_mutate_info zero_state.info).2 with
      | none => simp [hr, htext, hp]
      | some info => simp [hr, htext, hp, hget, PARSE_OPTION_INT_num_bits, hnz, hfind]

/-- C5 at the value 3 of the spec. -/
theorem setup_options_rejects_invalid_num_bits_witness :
    setup_options true sample_reset_mutate_info sample_parse_mutate_info_options
      (sample_get_int_options 3) (some "\x7b\"num_bits\": 3\x7d") = none :=
  setup_options_rejects_invalid_num_bits true sample_reset_mutate_info
    sample_parse_mutate_info_options (sample_get_int_options 3) "\x7b\"num_bits\": 3\x7d" 3
    (by decide) (by decide) (by decide) (by decide) (by decide)

/-- C10. With `num_bits` present and equal to `w` among 1, 2, 4, 8, 16, 32
(the allocation, `reset_mutate_info` and the shared options having succeeded)
`setup_options` returns the state with `num_bits = w`, `one_stage_only = 1`
and `stage` the one index `i` below 6 whose `bits_per_stage` entry is `w`, so
`2^i = w`, an index into the six-entry table `mutate_funcs`. With no options
or an empty text it returns `num_bits = 0` and the mutate-info exactly as
`reset_mutate_info` left it: no stage restriction is set. -/
theorem setup_options_valid_num_bits
    (reset_mutate_info : mutate_info_t → Int × mutate_info_t)
    (parse_mutate_info_options : String → mutate_info_t → Option mutate_info_t)
    (get_int_options : String → String → option_int)
    (text : String) (w : Nat) (info0 info1 : mutate_info_t)
    (hreset : reset_mutate_info zero_state.info = (0, info0))
    (htext : text.length ≠ 0)
    (hparse : parse_mutate_info_options text info0 = some info1)
    (hget : get_int_options text "num_bits" = option_int.value (w : Int))
    (hw : w ∈ bits_per_stage) :
    (∃ i : Nat, i < 6 ∧ bits_per_stage[i]? = some w ∧ 2 ^ i = w ∧
        (∀ j : Nat, bits_per_stage[j]? = some w → j = i) ∧
        i < mutate_funcs.length ∧
        setup_options true reset_mutate_info parse_mutate_info_options get_int_options
            (some text)
          = some { num_bits := w, input := [], input_length := 0, iteration := 0,
                   info := { info1 with stage := (i : Int), one_stage_only := 1 } }) ∧
      setup_options true reset_mutate_info parse_mutate_info_options get_int_options none
        = some { zero_state with info := info0 } ∧
      setup_options true reset_mutate_info parse_mutate_info_options get_int_options
          (some "")
        = some { zero_state with info := info0 } := by
  have hreset2 : reset_mutate_info
      { stage := 0, one_stage_only := 0, mutate_mutex := 0, cursor := 0 } = (0, info0) := hreset
  refine ⟨?_, ?_, ?_⟩
  · simp only [bits_per_stage, List.mem_cons, List.mem_singleton, List.not_mem_nil,
      or_false] at hw
    rcases hw with h | h | h | h | h | h <;> subst h
    · refine ⟨0, by decide, by decide, by decide, fun j hj => ?_, by decide, ?_⟩
      · rcases j with _ | _ | _ | _ | _ | _ | j <;> simp [bits_per_stage] at hj ⊢
      · simp [setup_options, hreset2, htext, hparse, hget, PARSE_OPTION_INT_num_bits,
          int_to_u64, find_stage, bits_per_stage, zero_state]
    · refine ⟨1, by decide, by decide, by decide, fun j hj => ?_, by decide, ?_⟩
      · rcases j with _ | _ | _ | _ | _ | _ | j <;> simp [bits_per_stage] at hj ⊢
      · simp [setup_options, hreset2, htext, hparse, hget, PARSE_OPTION_INT_num_bits,
          int_to_u64, find_stage, bits_per_stage, zero_state]
    · refine ⟨2, by decide, by decide, by decide, fun j hj => ?_, by decide, ?_⟩
      · rcases j with _ | _ | _ | _ | _ | _ | j <;> simp [bits_per_stage] at hj ⊢
      · simp [setup_options, hreset2, htext, hparse, hget, PARSE_OPTION_INT_num_bits,
          int_to_u64, find_stage, bits_per_stage, zero_state]
    · refine ⟨3, by decide, by decide, by decide, fun j hj => ?_, by decide, ?_⟩
      · rcases j with _ | _ | _ | _ | _ | _ | j <;> simp [bits_per_stage] at hj ⊢
      · simp [setup_options, hreset2, htext, hparse, hget, PARSE_OPTION_INT_num_bits,
          int_to_u64, find_stage, bits_per_stage, zero_state]
    · refine ⟨4, by decide, by decide, by decide, fun j hj => ?_, by decide, ?_⟩
      · rcases j with _ | _ | _ | _ | _ | _ | j <;> simp [bits_per_stage] at hj ⊢
      · simp [setup_options, hreset2, htext, hparse, hget, PARSE_OPTION_INT_num_bits,
          int_to_u64, find_stage, bits_per_stage, zero_state]
    · refine ⟨5, by decide, by decide, by decide, fun j hj => ?_, by decide, ?_⟩
      · rcases j with _ | _ | _ | _ | _ | _ | j <;> simp [bits_per_stage] at hj ⊢
      · simp [setup_options, hreset2, htext, hparse, hget, PARSE_OPTION_INT_num_bits,
          int_to_u64, find_stage, bits_per_stage, zero_state]
  · simp [setup_options, hreset2, zero_state]
  · simp [setup_options, hreset2, zero_state]

/-- C10 at the 8-bit window: stage 3, the walking byte. -/
theorem setup_options_valid_num_bits_witness :
    ∃ i : Nat, i < 6 ∧ bits_per_stage[i]? = some 8 ∧ 2 ^ i = 8 ∧
      (∀ j : Nat, bits_per_stage[j]? = some 8 → j = i) ∧
      i < mutate_funcs.length ∧
      setup_options true sample_reset_mutate_info sample_parse_mutate_info_options
          (sample_get_int_options 8) (some "\x7b\"num_bits\": 8\x7d")
        = some { num_bits := 8, input := [], input_length := 0, iteration := 0,
                 info := { zero_state.info with stage := (i : Int), one_stage_only := 1 } } :=
  (setup_options_valid_num_bits sample_reset_mutate_info sample_parse_mutate_info_options
    (sample_get_int_options 8) "\x7b\"num_bits\": 8\x7d" 8 zero_state.info zero_state.info
    (by decide) (by decide) (by decide) (by decide) (by decide)).1

/-! ## C7: failures of `set_state` -/

/-- C7 fails as stated: a snapshot with `iteration` but no `num_bits` makes
`set_state` return 1 after `iteration` was stored (0 became 5); one with both
but without the mutate-info members returns 1 after both were stored. -/
theorem set_state_failure_keeps_partial_update :
    set_state get_mutate_info_from_json byte_seed_state
        (some (snapshot_t.object [("iteration", json_value.integer 5)]))
      = (1, { byte_seed_state with iteration := 5 }) ∧
    (set_state get_mutate_info_from_json byte_seed_state
        (some (snapshot_t.object [("iteration", json_value.integer 5)]))).2
      ≠ byte_seed_state ∧
    set_state get_mutate_info_from_json byte_seed_state
        (some (snapshot_t.object
          [("iteration", json_value.integer 5), ("num_bits", json_value.integer 2)]))
      = (1, { byte_seed_state with iteration := 5, num_bits := 2 }) := by
  decide

/-- C7, as the code has it. A failing `set_state` returns 1 and has stored
the members read before the failure: nothing for a `NULL` snapshot or an
unreadable `iteration`; `iteration` alone when `num_bits` is unreadable;
`iteration` and `num_bits` when the mutate-info decoder fails, the
mutate-info being what the decoder left. -/
theorem set_state_failure_cases
    (decoder : snapshot_t → mutate_info_t → Int × mutate_info_t)
    (current_state : bit_flip_state_t) :
    set_state decoder current_state none = (1, current_state) ∧
    (∀ text : snapshot_t, get_int_from_snapshot text "iteration" = none →
      set_state decoder current_state (some text) = (1, current_state)) ∧
    (∀ (text : snapshot_t) (it : Int), get_int_from_snapshot text "iteration" = some it →
      get_int_from_snapshot text "num_bits" = none →
      set_state decoder current_state (some text)
        = (1, { current_state with iteration := it })) ∧
    (∀ (text : snapshot_t) (it nb : Int),
      get_int_from_snapshot text "iteration" = some it →
      get_int_from_snapshot text "num_bits" = some nb →
      (decoder text current_state.info).1 ≠ 0 →
      set_state decoder current_state (some text)
        = (1, { current_state with
                iteration := it, num_bits := int_to_u64 nb,
                info := (decoder text current_state.info).2 })) := by
  refine ⟨rfl, ?_, ?_, ?_⟩
  · intro text h
    simp [set_state, h]
  · intro text it h1 h2
    simp [set_state, h1, h2]
  · intro text it nb h1 h2 h3
    simp [set_state, h1, h2, h3]

/-- C7 on a snapshot that does not parse: the state is left as it was. -/
theorem set_state_failure_cases_witness :
    set_state get_mutate_info_from_json byte_seed_state (some snapshot_t.invalid)
      = (1, byte_seed_state) :=
  (set_state_failure_cases get_mutate_info_from_json byte_seed_state).2.1
    snapshot_t.invalid (by decide)

/-! ## C9: the round trip of the codec -/

theorem int_to_u64_in_range (v : Int) (h : is_int v) : is_u64_of_int (int_to_u64 v) := by
  unfold is_int INT_MIN INT_MAX at h
  unfold is_u64_of_int int_to_u64
  omega

theorem num_bits_round_trip (n : Nat) (h : is_u64_of_int n) :
    int_to_u64 (to_int (u64_to_i64 n)) = n := by
  unfold is_u64_of_int at h
  unfold int_to_u64 to_int u64_to_i64 U64_MOD
  split <;> omega

theorem set_state_fields_in_range
    (decoder : snapshot_t → mutate_info_t → Int × mutate_info_t)
    (current_state : bit_flip_state_t) (state : Option snapshot_t)
    (h : is_int current_state.iteration ∧ is_u64_of_int current_state.num_bits) :
    is_int (set_state decoder current_state state).2.iteration ∧
      is_u64_of_int (set_state decoder current_state state).2.num_bits := by
  cases state with
  | none => exact h
  | some text =>
    have hto : ∀ (name : String) (v : Int), get_int_from_snapshot text name = some v →
        is_int v := by
      intro name v hv
      unfold get_int_from_snapshot at hv
      split at hv
      · exact absurd hv (by simp)
      · split at hv
        · simp only [Option.some.injEq] at hv
          rw [← hv]
          exact is_int_to_int _
        · exact absurd hv (by simp)
    cases h1 : get_int_from_snapshot text "iteration" with
    | none => simpa [set_state, h1] using h
    | some it =>
      cases h2 : get_int_from_snapshot text "num_bits" with
      | none =>
        simp only [set_state, h1, h2]
        exact ⟨hto _ _ h1, h.2⟩
      | some nb =>
        simp only [set_state, h1, h2]
        split <;> exact ⟨hto _ _ h1, int_to_u64_in_range _ (hto _ _ h2)⟩

theorem setup_options_fields_in_range (malloc_ok : Bool)
    (reset_mutate_info : mutate_info_t → Int × mutate_info_t)
    (parse_mutate_info_options : String → mutate_info_t → Option mutate_info_t)
    (get_int_options : String → String → option_int)
    (options : Option String) (s : bit_flip_state_t)
    (hint : ∀ (text : String) (v : Int),
      get_int_options text "num_bits" = option_int.value v → is_int v)
    (h : setup_options malloc_ok reset_mutate_info parse_mutate_info_options
      get_int_options options = some s) :
    is_int s.iteration ∧ is_u64_of_int s.num_bits := by
  have hzero : is_int (0 : Int) ∧ is_u64_of_int 0 := by decide
  rcases hrz : reset_mutate_info zero_state.info with ⟨rc, info0⟩
  have hrz2 : reset_mutate_info
      { stage := 0, one_stage_only := 0, mutate_mutex := 0, cursor := 0 } = (rc, info0) := hrz
  cases malloc_ok with
  | false => simp [setup_options] at h
  | true =>
    by_cases hr : rc ≠ 0
    · simp [setup_options, zero_state, hrz2, hr] at h
    · cases options with
      | none =>
        simp [setup_options, zero_state, hrz2, hr] at h
        rw [← h]
        exact hzero
      | some text =>
        by_cases ht : text.length = 0
        · simp [setup_options, zero_state, hrz2, hr, ht] at h
          rw [← h]
          exact hzero
        · cases hp : parse_mutate_info_options text info0 with
          | none => simp [setup_options, zero_state, hrz2, hr, ht, hp] at h
          | some info =>
            cases hg : get_int_options text "num_bits" with
            | error =>
              simp [setup_options, zero_state, hrz2, hr, ht, hp, hg,
                PARSE_OPTION_INT_num_bits] at h
            | absent =>
              simp [setup_options, zero_state, hrz2, hr, ht, hp, hg,
                PARSE_OPTION_INT_num_bits] at h
              rw [← h]
              exact hzero
            | value v =>
              have hv := int_to_u64_in_range v (hint text v hg)
              simp only [setup_options, zero_state, hrz2, hr, ht, hp, hg,
                PARSE_OPTION_INT_num_bits, if_false, Bool.not_true, Bool.false_eq_true] at h
              split at h
              · split at h
                · exact absurd h (by simp)
                · simp only [Option.some.injEq] at h
                  rw [← h]
                  exact ⟨hzero.1, hv⟩
              · simp only [Option.some.injEq] at h
                rw [← h]
                exact ⟨hzero.1, hv⟩

/-- C9. For every state `s` whose members are in the ranges of their C types,
`get_state` succeeds; `set_state` with that snapshot on any engine `h` returns
0 and gives `h` the iteration, `num_bits`, mode, stage and cursor of `s`; and
`set_state` on `s` with its own snapshot leaves `s` unchanged. -/
theorem set_state_get_state_round_trip (s h : bit_flip_state_t) (hs : state_in_range s) :
    (∃ snap : snapshot_t, get_state add_mutate_info_to_json s = some snap ∧
      set_state get_mutate_info_from_json h (some snap)
        = (0, { h with
                iteration := s.iteration, num_bits := s.num_bits,
                info := { h.info with
                  one_stage_only := s.info.one_stage_only, stage := s.info.stage,
                  cursor := s.info.cursor } })) ∧
      set_state get_mutate_info_from_json s (get_state add_mutate_info_to_json s) = (0, s) := by
  obtain ⟨hit, hst, hone, hcur, hnb⟩ := hs
  have e1 := to_int_of_is_int _ hit
  have e2 := to_int_of_is_int _ hst
  have e3 := to_int_of_is_int _ hone
  have e4 := to_int_of_is_int _ hcur
  have e5 := num_bits_round_trip _ hnb
  constructor
  · refine ⟨_, rfl, ?_⟩
    simp [set_state, get_mutate_info_from_json, get_int_from_snapshot, json_object_get,
      json_object_set, json_object, json_dumps, ADD_INT, e1, e2, e3, e4, e5]
  · simp [get_state, add_mutate_info_to_json, set_state, get_mutate_info_from_json,
      get_int_from_snapshot, json_object_get, json_object_set, json_object, json_dumps,
      ADD_INT, e1, e2, e3, e4, e5]

/-- C9 on the state after one mutation of the one-byte seed, restored into a
fresh engine. -/
theorem set_state_get_state_round_trip_witness :
    set_state get_mutate_info_from_json
        { byte_seed_state with iteration := 1, info := { byte_seed_state.info with cursor := 1 } }
        (get_state add_mutate_info_to_json
          { byte_seed_state with
            iteration := 1, info := { byte_seed_state.info with cursor := 1 } })
      = (0, { byte_seed_state with
              iteration := 1, info := { byte_seed_state.info with cursor := 1 } }) :=
  (set_state_get_state_round_trip
    { byte_seed_state with iteration := 1, info := { byte_seed_state.info with cursor := 1 } }
    byte_seed_state (by decide)).2

end BitFlip
